import Mathlib

/-!
Verification of the ai-goop repository: the newsletter tool-use loop
(`generate_newsletter`), the coaching single-shot generation
(`generate_coaching_email`), the Gmail OAuth credential lifecycle
(`get_gmail_service`), the date-window helper (`get_date_range`) and the
mail dispatcher (`send_email`), shallowly embedded from the Python source.
-/

/- ── Conversation data model (Anthropic messages API, as used by the code) ── -/

/-- A content block of a responder or requester turn.  `text` blocks carry a
`.text` attribute; `tool_use` blocks carry an `.id`; `tool_result` blocks are
the dicts the loop builds with a `tool_use_id` and placeholder `content`. -/
inductive Block where
  | text (s : String)
  | tool_use (id : String)
  | tool_result (tool_use_id : String) (content : String)
deriving DecidableEq, Repr

inductive Role where
  | user
  | assistant
deriving DecidableEq, Repr

/-- Message content: the initial prompt is a plain string; appended turns carry
lists of blocks (`response.content` for assistant turns, the built
`tool_results` list for user turns). -/
inductive MsgContent where
  | ofString (s : String)
  | ofBlocks (bs : List Block)
deriving DecidableEq, Repr

structure Message where
  role : Role
  content : MsgContent
deriving DecidableEq, Repr

inductive StopReason where
  | end_turn
  | tool_use
  | other (s : String)
deriving DecidableEq, Repr

/-- One API response: `stop_reason` plus the content blocks of the turn. -/
structure Response where
  stop_reason : StopReason
  content : List Block
deriving DecidableEq, Repr

/-- The remote model, abstracted: a function from the submitted conversation to
the next response.  `client.messages.create` is one application of it. -/
def ApiClient : Type := List Message → Response

/- ── String helpers modelling the Python operations used ── -/

/-- Models the Python blank test `not s.strip()`: true iff every character of
`s` is whitespace (in particular for the empty string). -/
def isBlank (s : String) : Bool := s.data.all Char.isWhitespace

/-- Models Python `sep.join(pieces)`. -/
def joinSep (sep : String) : List String → String
  | [] => ""
  | [s] => s
  | s :: s2 :: rest => s ++ sep ++ joinSep sep (s2 :: rest)

namespace Newsletter

/-- The `tool_results` list built by the loop body: one
`{"type": "tool_result", "tool_use_id": block.id, "content": ""}` dict per
`tool_use` block of `response.content`, in order. -/
def tool_results_of (content : List Block) : List Block :=
  content.filterMap fun b =>
    match b with
    | Block.tool_use i => some (Block.tool_result i "")
    | _ => none

/-- The ids of the `tool_use` blocks of a turn, in order. -/
def tool_use_ids (content : List Block) : List String :=
  content.filterMap fun b =>
    match b with
    | Block.tool_use i => some i
    | _ => none

/-- The `while True` agentic loop of `generate_newsletter`, with explicit fuel
(the Python loop has no client-side bound; `none` means the fuel ran out with
the loop still running).  Returns the response the loop ended on together with
the accumulated conversation. -/
def generate_newsletter_loop (client : ApiClient) :
    Nat → List Message → Option (Response × List Message)
  | 0, _ => none
  | fuel + 1, messages =>
    let response := client messages
    let messages1 := messages ++ [⟨Role.assistant, MsgContent.ofBlocks response.content⟩]
    match response.stop_reason with
    | StopReason.end_turn => some (response, messages1)
    | StopReason.tool_use =>
      let tool_results := tool_results_of response.content
      if tool_results.isEmpty then
        generate_newsletter_loop client fuel messages1
      else
        generate_newsletter_loop client fuel
          (messages1 ++ [⟨Role.user, MsgContent.ofBlocks tool_results⟩])
    | StopReason.other _ => some (response, messages1)

/-- The generator expression
`(block.text for block in response.content if hasattr(block, "text") and block.text)`:
the texts of the text blocks whose text is nonempty, in order. -/
def extract_text (content : List Block) : List String :=
  content.filterMap fun b =>
    match b with
    | Block.text s => if s = "" then none else some s
    | _ => none

/-- Models `"\n\n".join(...)` over the extracted texts of the final turn. -/
def newsletter_text_of (content : List Block) : String :=
  joinSep "\n\n" (extract_text content)

/-- The function `generate_newsletter`, abstracted over the client and given loop fuel:
runs the agentic loop from the single-prompt conversation, then extracts the
text of the final response; raises (`Except.error`) on blank output. -/
def generate_newsletter (client : ApiClient) (fuel : Nat) (prompt : String) :
    Option (Except String String) :=
  match generate_newsletter_loop client fuel [⟨Role.user, MsgContent.ofString prompt⟩] with
  | none => none
  | some (response, _) =>
    let newsletter_text := newsletter_text_of response.content
    if isBlank newsletter_text then
      some (Except.error "No text content returned by the model.")
    else
      some (Except.ok newsletter_text)

end Newsletter

/- ── Gmail OAuth credential lifecycle (`get_gmail_service` in both jobs) ── -/

/-- A `google.oauth2.credentials.Credentials` object, abstracted to the fields
the code inspects: `valid`, `expired`, presence of a `refresh_token`, and its
`to_json()` serialization. -/
structure GCreds where
  valid : Bool
  expired : Bool
  refresh_token : Bool
  json : String
deriving DecidableEq, Repr

/-- The external world `get_gmail_service` interacts with: the persisted token
file (`none` when `TOKEN_PATH` does not exist), whether `CREDS_PATH` exists,
the outcome of `creds.refresh(Request())` (`none` = the refresh raises), and
the outcome of `flow.run_local_server` (`none` = the interactive flow raises). -/
structure AuthEnv where
  token_file : Option GCreds
  creds_file_exists : Bool
  refresh_result : Option GCreds
  flow_result : Option GCreds
deriving DecidableEq, Repr

inductive AuthError where
  | credsFileMissing
  | refreshError
  | flowError
deriving DecidableEq, Repr

/-- What an invocation of `get_gmail_service` produced: the credentials the
Gmail service is built with, and the content written to `TOKEN_PATH`
(`none` = no write happened). -/
structure AuthOutcome where
  creds : GCreds
  written : Option String
deriving DecidableEq, Repr

namespace Newsletter

/-- The function `get_gmail_service` from `generate_newsletter.py`: load the token file if
present; if the credentials are missing or invalid, refresh when expired with
a refresh token (an exception from `creds.refresh` propagates), otherwise run
the interactive flow (after checking `CREDS_PATH` exists), then persist. -/
def get_gmail_service (env : AuthEnv) : Except AuthError AuthOutcome :=
  match env.token_file with
  | some creds =>
    if creds.valid then
      Except.ok ⟨creds, none⟩
    else if creds.expired && creds.refresh_token then
      match env.refresh_result with
      | some creds1 => Except.ok ⟨creds1, some creds1.json⟩
      | none => Except.error AuthError.refreshError
    else if !env.creds_file_exists then
      Except.error AuthError.credsFileMissing
    else
      match env.flow_result with
      | some creds1 => Except.ok ⟨creds1, some creds1.json⟩
      | none => Except.error AuthError.flowError
  | none =>
    if !env.creds_file_exists then
      Except.error AuthError.credsFileMissing
    else
      match env.flow_result with
      | some creds1 => Except.ok ⟨creds1, some creds1.json⟩
      | none => Except.error AuthError.flowError

end Newsletter

namespace Coaching

/-- The function `get_gmail_service` from `generate_coaching.py`: same lifecycle as the
newsletter version except there is no explicit `CREDS_PATH.exists()` check
before the interactive flow. -/
def get_gmail_service (env : AuthEnv) : Except AuthError AuthOutcome :=
  match env.token_file with
  | some creds =>
    if creds.valid then
      Except.ok ⟨creds, none⟩
    else if creds.expired && creds.refresh_token then
      match env.refresh_result with
      | some creds1 => Except.ok ⟨creds1, some creds1.json⟩
      | none => Except.error AuthError.refreshError
    else
      match env.flow_result with
      | some creds1 => Except.ok ⟨creds1, some creds1.json⟩
      | none => Except.error AuthError.flowError
  | none =>
    match env.flow_result with
    | some creds1 => Except.ok ⟨creds1, some creds1.json⟩
    | none => Except.error AuthError.flowError

/-- How `generate_coaching_email` can fail: `response.content[0]` on an empty
list raises IndexError, `.text` on a block without that attribute raises
AttributeError, and blank text raises `ValueError("No content returned...")`. -/
inductive GenError where
  | indexError
  | attributeError
  | noContent
deriving DecidableEq, Repr

/-- The function `generate_coaching_email`, abstracted over the client, applied to the
already-formatted prompt: submits the single user turn, then returns
`response.content[0].text` after the blank check. -/
def generate_coaching_email (client : ApiClient) (prompt : String) :
    Except GenError String :=
  let response := client [⟨Role.user, MsgContent.ofString prompt⟩]
  match response.content with
  | [] => Except.error GenError.indexError
  | b :: _ =>
    match b with
    | Block.text t =>
      if isBlank t then Except.error GenError.noContent else Except.ok t
    | _ => Except.error GenError.attributeError

end Coaching

/- ── Date window (`get_date_range` in `generate_newsletter.py`) ── -/

/-- Days are modelled as integer day numbers anchored so that
`weekday d = d.emod 7` matches Python `datetime.weekday()`:
Monday = 0, ..., Sunday = 6. -/
def weekday (d : Int) : Int := d % 7

/-- The function `get_date_range`: `days_back = today.weekday() + 7`;
`last_monday = today - timedelta(days=days_back)`;
`last_sunday = last_monday + timedelta(days=6)`.  Returns
`(last_monday, last_sunday)` as day numbers (the `strftime` formatting is
presentation only). -/
def get_date_range (today : Int) : Int × Int :=
  let days_back := weekday today + 7
  let last_monday := today - days_back
  let last_sunday := last_monday + 6
  (last_monday, last_sunday)

/- ── Mail dispatch (`send_email` in both jobs) ── -/

/-- The outgoing MIME message as `send_email` assembles it: subject, the
`From` and `To` headers, and the attached (mime-subtype, payload) parts. -/
structure MimeMessage where
  subject : String
  from_header : String
  to_header : String
  parts : List (String × String)
deriving DecidableEq, Repr

namespace Newsletter

/-- The function `send_email` from `generate_newsletter.py`, abstracted over the HTML
builder `_build_html` (whose output is attached as the second alternative). -/
def send_email (build_html : String → String → String)
    (to_address subject body : String) : MimeMessage :=
  { subject := subject
    from_header := to_address
    to_header := to_address
    parts := [("plain", body), ("html", build_html subject body)] }

end Newsletter

namespace Coaching

/-- The function `send_email` from `generate_coaching.py`, abstracted over `_build_html`. -/
def send_email (build_html : String → String → String)
    (to_address subject body : String) : MimeMessage :=
  { subject := subject
    from_header := to_address
    to_header := to_address
    parts := [("plain", body), ("html", build_html subject body)] }

end Coaching

/- ── Helper lemmas ── -/

theorem isBlank_append (s t : String) :
    isBlank (s ++ t) = (isBlank s && isBlank t) := by
  simp [isBlank, String.data_append, List.all_append]

theorem isBlank_joinSep (l : List String)
    (h : ∀ s ∈ l, isBlank s = true) : isBlank (joinSep "\n\n" l) = true := by
  induction l with
  | nil => decide
  | cons s rest ih =>
    cases rest with
    | nil => exact h s (by simp)
    | cons s2 rest2 =>
      have hs : isBlank s = true := h s (by simp)
      have hrest : isBlank (joinSep "\n\n" (s2 :: rest2)) = true :=
        ih (fun x hx => h x (by simp [hx]))
      show isBlank (s ++ "\n\n" ++ joinSep "\n\n" (s2 :: rest2)) = true
      rw [isBlank_append, isBlank_append, hs, hrest]
      decide

theorem mem_extract_text (content : List Block) (s : String)
    (h : s ∈ Newsletter.extract_text content) : Block.text s ∈ content := by
  rw [Newsletter.extract_text, List.mem_filterMap] at h
  obtain ⟨b, hb, hf⟩ := h
  cases b with
  | text t =>
    by_cases ht : t = "" <;> simp [ht] at hf
    rwa [hf] at hb
  | tool_use i => simp at hf
  | tool_result i c => simp at hf

theorem tool_results_of_eq_map (content : List Block) :
    Newsletter.tool_results_of content =
      (Newsletter.tool_use_ids content).map (fun i => Block.tool_result i "") := by
  induction content with
  | nil => rfl
  | cons b rest ih =>
    cases b <;> simp [Newsletter.tool_results_of, Newsletter.tool_use_ids,
      List.filterMap_cons] at ih ⊢ <;> exact ih

/- ── C5: prior Monday-to-Sunday window ── -/

/-- C5: for every invocation day, `get_date_range` returns a window whose start
is a Monday and whose end is six days later, the whole window lying strictly
before today; when today is itself a Monday the window is today minus 7
through today minus 1. -/
theorem get_date_range_prior_full_week (d : Int) :
    weekday (get_date_range d).1 = 0 ∧
    (get_date_range d).2 = (get_date_range d).1 + 6 ∧
    (get_date_range d).2 < d ∧
    (weekday d = 0 → (get_date_range d).1 = d - 7 ∧ (get_date_range d).2 = d - 1) := by
  refine ⟨?_, ?_, ?_, ?_⟩
  · show (d - (d % 7 + 7)) % 7 = 0
    omega
  · rfl
  · show d - (d % 7 + 7) + 6 < d
    omega
  · intro h
    simp only [weekday] at h
    constructor
    · show d - (d % 7 + 7) = d - 7
      omega
    · show d - (d % 7 + 7) + 6 = d - 1
      omega

/-- Witness for C5 at day number 14 (a Monday under the chosen anchor). -/
theorem get_date_range_prior_full_week_witness :
    weekday (get_date_range 14).1 = 0 ∧
    (get_date_range 14).1 = 14 - 7 ∧ (get_date_range 14).2 = 14 - 1 := by
  have h := get_date_range_prior_full_week 14
  exact ⟨h.1, (h.2.2.2 (by decide)).1, (h.2.2.2 (by decide)).2⟩

/- ── C10: sender equals recipient ── -/

/-- C10: in both jobs, `send_email` sets the From header equal to the To
header, both being the configured recipient address passed as `to_address`. -/
theorem send_email_from_equals_to (build_html : String → String → String)
    (to_address subject body : String) :
    ((Newsletter.send_email build_html to_address subject body).from_header =
        (Newsletter.send_email build_html to_address subject body).to_header ∧
      (Newsletter.send_email build_html to_address subject body).to_header = to_address) ∧
    ((Coaching.send_email build_html to_address subject body).from_header =
        (Coaching.send_email build_html to_address subject body).to_header ∧
      (Coaching.send_email build_html to_address subject body).to_header = to_address) :=
  ⟨⟨rfl, rfl⟩, ⟨rfl, rfl⟩⟩

/- ── C6: valid credential returned unchanged with no write ── -/

/-- C6: when the persisted credential loads as valid, `get_gmail_service`
returns it unchanged with no write to the token file; a second invocation in
the same persisted state (which the first one did not change) returns the
identical credential, again with no write. -/
theorem get_gmail_service_valid_no_write (env env2 : AuthEnv) (c : GCreds)
    (h1 : env.token_file = some c) (h2 : env2.token_file = some c)
    (hv : c.valid = true) :
    Newsletter.get_gmail_service env = Except.ok ⟨c, none⟩ ∧
    Newsletter.get_gmail_service env2 = Except.ok ⟨c, none⟩ := by
  constructor <;> · simp [Newsletter.get_gmail_service, h1, h2, hv]

/-- Witness for C6: a concrete valid persisted credential. -/
theorem get_gmail_service_valid_no_write_witness :
    Newsletter.get_gmail_service ⟨some ⟨true, false, true, "tok"⟩, true, none, none⟩ =
      Except.ok ⟨⟨true, false, true, "tok"⟩, none⟩ ∧
    Newsletter.get_gmail_service ⟨some ⟨true, false, true, "tok"⟩, true, none, none⟩ =
      Except.ok ⟨⟨true, false, true, "tok"⟩, none⟩ :=
  get_gmail_service_valid_no_write _ _ ⟨true, false, true, "tok"⟩ rfl rfl rfl

/- ── C3: refresh path of the credential lifecycle ── -/

/-- C3 counterexample: an expired credential with a refresh token whose
refresh exchange fails, while a working interactive flow is available
(`flow_result` would yield a fresh credential): `get_gmail_service` aborts
with the refresh error instead of falling through to the interactive flow. -/
theorem get_gmail_service_refresh_failure_cex :
    Newsletter.get_gmail_service
        ⟨some ⟨false, true, true, "old"⟩, true, none, some ⟨true, false, true, "fresh"⟩⟩ =
      Except.error AuthError.refreshError ∧
    Newsletter.get_gmail_service
        ⟨some ⟨false, true, true, "old"⟩, true, none, some ⟨true, false, true, "fresh"⟩⟩ ≠
      Except.ok ⟨⟨true, false, true, "fresh"⟩, some "fresh"⟩ := by
  constructor
  · rfl
  · intro h
    simp [Newsletter.get_gmail_service] at h

/-- C3 (amended): with a persisted, invalid, expired credential carrying a
refresh token, `get_gmail_service` attempts the refresh exchange; on success
it persists the refreshed credential's serialization and returns it; on
failure the exception propagates and the run aborts — in both jobs the
interactive re-authorization flow is not attempted. -/
theorem get_gmail_service_refresh_behaviour (env : AuthEnv) (c : GCreds)
    (h : env.token_file = some c) (hv : c.valid = false)
    (he : c.expired = true) (hr : c.refresh_token = true) :
    (∀ c1, env.refresh_result = some c1 →
      Newsletter.get_gmail_service env = Except.ok ⟨c1, some c1.json⟩) ∧
    (env.refresh_result = none →
      Newsletter.get_gmail_service env = Except.error AuthError.refreshError) ∧
    (∀ c1, env.refresh_result = some c1 →
      Coaching.get_gmail_service env = Except.ok ⟨c1, some c1.json⟩) ∧
    (env.refresh_result = none →
      Coaching.get_gmail_service env = Except.error AuthError.refreshError) := by
  refine ⟨?_, ?_, ?_, ?_⟩ <;> intro hres <;>
    first
    | (intro hres2
       simp [Newsletter.get_gmail_service, Coaching.get_gmail_service,
         h, hv, he, hr, hres2])
    | simp [Newsletter.get_gmail_service, Coaching.get_gmail_service,
        h, hv, he, hr, hres]

/-- Witness for C3 (amended): a concrete expired credential whose refresh
succeeds. -/
theorem get_gmail_service_refresh_behaviour_witness :
    Newsletter.get_gmail_service
        ⟨some ⟨false, true, true, "old"⟩, true, some ⟨true, false, true, "new"⟩, none⟩ =
      Except.ok ⟨⟨true, false, true, "new"⟩, some "new"⟩ :=
  (get_gmail_service_refresh_behaviour _ ⟨false, true, true, "old"⟩
    rfl rfl rfl rfl).1 ⟨true, false, true, "new"⟩ rfl

/- ── C4: coaching generation takes the first content block ── -/

/-- C4 counterexample: a responder turn with two text blocks "a" and "b":
`generate_coaching_email` returns only the first block's text "a", not the
concatenation "ab" of all text blocks. -/
theorem generate_coaching_email_first_block_cex :
    Coaching.generate_coaching_email
        (fun _ => ⟨StopReason.end_turn, [Block.text "a", Block.text "b"]⟩) "p" =
      Except.ok "a" ∧
    Coaching.generate_coaching_email
        (fun _ => ⟨StopReason.end_turn, [Block.text "a", Block.text "b"]⟩) "p" ≠
      Except.ok "ab" := by
  constructor
  · rfl
  · intro h
    rw [show Coaching.generate_coaching_email
        (fun _ => ⟨StopReason.end_turn, [Block.text "a", Block.text "b"]⟩) "p" =
          Except.ok "a" from rfl] at h
    injection h with h2
    exact absurd h2 (by decide)

/-- C4 (amended): the single-shot generation submits exactly one requester
turn containing the prompt and returns the text of the *first* content block
of the responder's turn (`response.content[0].text`), failing when that text
is blank — it does not concatenate the remaining text blocks. -/
theorem generate_coaching_email_first_block (client : ApiClient)
    (prompt : String) (r : StopReason) (t : String) (rest : List Block)
    (h : client [⟨Role.user, MsgContent.ofString prompt⟩] = ⟨r, Block.text t :: rest⟩) :
    Coaching.generate_coaching_email client prompt =
      (if isBlank t then Except.error Coaching.GenError.noContent
       else Except.ok t) := by
  simp [Coaching.generate_coaching_email, h]

/-- Witness for C4 (amended): a concrete client with a nonblank first text
block followed by a second block. -/
theorem generate_coaching_email_first_block_witness :
    Coaching.generate_coaching_email
        (fun _ => ⟨StopReason.end_turn, [Block.text "hi", Block.text "z"]⟩) "p" =
      (if isBlank "hi" then Except.error Coaching.GenError.noContent
       else Except.ok "hi") :=
  generate_coaching_email_first_block _ "p" StopReason.end_turn "hi" [Block.text "z"] rfl

/- ── C1: tool_use turn acknowledged with one requester turn ── -/

/-- C1 counterexample: a responder turn with stop reason `tool_use` but zero
`tool_use` blocks (N = 0): the loop appends no requester turn at all — the
final conversation holds the two assistant turns with no tool-result turn
between them — instead of the one requester turn with 0 results the claim
requires for every N. -/
theorem tool_use_turn_appends_results_cex :
    Newsletter.generate_newsletter_loop
        (fun ms =>
          if ms.length ≤ 1 then ⟨StopReason.tool_use, [Block.text "x"]⟩
          else ⟨StopReason.end_turn, [Block.text "done"]⟩)
        2 [⟨Role.user, MsgContent.ofString "p"⟩] =
      some (⟨StopReason.end_turn, [Block.text "done"]⟩,
        [⟨Role.user, MsgContent.ofString "p"⟩,
         ⟨Role.assistant, MsgContent.ofBlocks [Block.text "x"]⟩,
         ⟨Role.assistant, MsgContent.ofBlocks [Block.text "done"]⟩]) := by
  rfl

/-- C1 (amended): for every iteration whose responder turn has stop reason
`tool_use` and contains N ≥ 1 tool-invocation-request blocks, the loop
resubmits the conversation extended by that responder turn plus exactly one
requester turn whose content is exactly N tool-invocation-result blocks, one
per request, carrying the requests' ids in the order the requests appeared;
when N = 0 no requester turn is appended. -/
theorem tool_use_turn_appends_results (client : ApiClient)
    (messages : List Message) (fuel : Nat) (content : List Block)
    (h : client messages = ⟨StopReason.tool_use, content⟩)
    (hne : Newsletter.tool_use_ids content ≠ []) :
    Newsletter.generate_newsletter_loop client (fuel + 1) messages =
      Newsletter.generate_newsletter_loop client fuel
        (messages ++ [⟨Role.assistant, MsgContent.ofBlocks content⟩,
          ⟨Role.user, MsgContent.ofBlocks (Newsletter.tool_results_of content)⟩]) ∧
    Newsletter.tool_results_of content =
      (Newsletter.tool_use_ids content).map (fun i => Block.tool_result i "") ∧
    (Newsletter.tool_results_of content).length =
      (Newsletter.tool_use_ids content).length := by
  have hmap := tool_results_of_eq_map content
  refine ⟨?_, hmap, by rw [hmap]; exact List.length_map _ _⟩
  have hne2 : Newsletter.tool_results_of content ≠ [] := by
    rw [hmap]
    simpa using hne
  simp [Newsletter.generate_newsletter_loop, h, List.isEmpty_eq_false.mpr hne2]

/-- Witness for C1 (amended): a single `tool_use` request with id "t1". -/
theorem tool_use_turn_appends_results_witness :
    Newsletter.generate_newsletter_loop
        (fun _ => ⟨StopReason.tool_use, [Block.tool_use "t1"]⟩) 1
        [⟨Role.user, MsgContent.ofString "p"⟩] =
      Newsletter.generate_newsletter_loop
        (fun _ => ⟨StopReason.tool_use, [Block.tool_use "t1"]⟩) 0
        ([⟨Role.user, MsgContent.ofString "p"⟩] ++
          [⟨Role.assistant, MsgContent.ofBlocks [Block.tool_use "t1"]⟩,
           ⟨Role.user, MsgContent.ofBlocks
             (Newsletter.tool_results_of [Block.tool_use "t1"])⟩]) ∧
    Newsletter.tool_results_of [Block.tool_use "t1"] =
      (Newsletter.tool_use_ids [Block.tool_use "t1"]).map
        (fun i => Block.tool_result i "") :=
  ⟨(tool_use_turn_appends_results
      (fun _ => ⟨StopReason.tool_use, [Block.tool_use "t1"]⟩)
      [⟨Role.user, MsgContent.ofString "p"⟩] 0 [Block.tool_use "t1"]
      rfl (by decide)).1,
   (tool_use_turn_appends_results
      (fun _ => ⟨StopReason.tool_use, [Block.tool_use "t1"]⟩)
      [⟨Role.user, MsgContent.ofString "p"⟩] 0 [Block.tool_use "t1"]
      rfl (by decide)).2.1⟩

/- ── C2: termination on end_turn and the returned document ── -/

/-- C2 counterexample: a final turn with text blocks "a" and "b": the returned
document is "a\n\nb" (the blocks joined with a blank line), not the plain
concatenation "ab". -/
theorem newsletter_end_turn_concat_cex :
    Newsletter.generate_newsletter
        (fun _ => ⟨StopReason.end_turn, [Block.text "a", Block.text "b"]⟩) 1 "p" =
      some (Except.ok "a\n\nb") ∧
    Newsletter.generate_newsletter
        (fun _ => ⟨StopReason.end_turn, [Block.text "a", Block.text "b"]⟩) 1 "p" ≠
      some (Except.ok "ab") := by
  have heq : Newsletter.generate_newsletter
      (fun _ => ⟨StopReason.end_turn, [Block.text "a", Block.text "b"]⟩) 1 "p" =
        some (Except.ok "a\n\nb") := by
    rfl
  refine ⟨heq, fun h => ?_⟩
  rw [heq] at h
  injection h with h1
  injection h1 with h2
  exact absurd h2 (by decide)

/-- C2 (amended): the loop exits at the first responder turn whose stop reason
is `end_turn`, appending only that turn; the returned document equals that
final turn's nonempty text blocks joined, in order, with blank-line ("\n\n")
separators (generation failing when that join is blank). -/
theorem newsletter_end_turn_behaviour :
    (∀ (client : ApiClient) (ms : List Message) (fuel : Nat),
      (client ms).stop_reason = StopReason.end_turn →
      Newsletter.generate_newsletter_loop client (fuel + 1) ms =
        some (client ms,
          ms ++ [⟨Role.assistant, MsgContent.ofBlocks (client ms).content⟩])) ∧
    (∀ (client : ApiClient) (fuel : Nat) (prompt : String) (resp : Response)
        (final : List Message),
      Newsletter.generate_newsletter_loop client fuel
          [⟨Role.user, MsgContent.ofString prompt⟩] = some (resp, final) →
      Newsletter.generate_newsletter client fuel prompt =
        some (if isBlank (joinSep "\n\n" (Newsletter.extract_text resp.content))
          then Except.error "No text content returned by the model."
          else Except.ok (joinSep "\n\n" (Newsletter.extract_text resp.content)))) := by
  constructor
  · intro client ms fuel h
    rcases hc : client ms with ⟨sr, content⟩
    rw [hc] at h
    simp only at h
    subst h
    simp [Newsletter.generate_newsletter_loop, hc]
  · intro client fuel prompt resp final hrun
    simp [Newsletter.generate_newsletter, hrun, Newsletter.newsletter_text_of,
      apply_ite]

/-- Witness for C2 (amended): a client that completes immediately with one
text block "hi". -/
theorem newsletter_end_turn_behaviour_witness :
    Newsletter.generate_newsletter_loop
        (fun _ => ⟨StopReason.end_turn, [Block.text "hi"]⟩) 1
        [⟨Role.user, MsgContent.ofString "p"⟩] =
      some (⟨StopReason.end_turn, [Block.text "hi"]⟩,
        [⟨Role.user, MsgContent.ofString "p"⟩,
         ⟨Role.assistant, MsgContent.ofBlocks [Block.text "hi"]⟩]) ∧
    Newsletter.generate_newsletter
        (fun _ => ⟨StopReason.end_turn, [Block.text "hi"]⟩) 1 "p" =
      some (if isBlank (joinSep "\n\n" (Newsletter.extract_text [Block.text "hi"]))
        then Except.error "No text content returned by the model."
        else Except.ok (joinSep "\n\n" (Newsletter.extract_text [Block.text "hi"]))) := by
  constructor
  · exact newsletter_end_turn_behaviour.1 _ _ 0 rfl
  · exact newsletter_end_turn_behaviour.2 _ 1 "p"
      ⟨StopReason.end_turn, [Block.text "hi"]⟩ _
      (newsletter_end_turn_behaviour.1 _ _ 0 rfl)

/- ── C7: blank final turn fails, nonblank succeeds ── -/

/-- C7: when every text block of the final responder turn is empty or
whitespace-only, generation fails with the empty-generation error; when the
joined text is not blank, generation returns it without error. -/
theorem newsletter_blank_final_turn (client : ApiClient) (fuel : Nat)
    (prompt : String) (resp : Response) (final : List Message)
    (hrun : Newsletter.generate_newsletter_loop client fuel
        [⟨Role.user, MsgContent.ofString prompt⟩] = some (resp, final)) :
    ((∀ s, Block.text s ∈ resp.content → isBlank s = true) →
      Newsletter.generate_newsletter client fuel prompt =
        some (Except.error "No text content returned by the model.")) ∧
    (isBlank (Newsletter.newsletter_text_of resp.content) = false →
      Newsletter.generate_newsletter client fuel prompt =
        some (Except.ok (Newsletter.newsletter_text_of resp.content))) := by
  constructor
  · intro hall
    have hblank : isBlank (Newsletter.newsletter_text_of resp.content) = true := by
      simp only [Newsletter.newsletter_text_of]
      exact isBlank_joinSep _ (fun s hs => hall s (mem_extract_text _ _ hs))
    simp [Newsletter.generate_newsletter, hrun, hblank]
  · intro hnb
    simp [Newsletter.generate_newsletter, hrun, hnb]

/-- Witness for C7: a final turn whose only text block is a single space. -/
theorem newsletter_blank_final_turn_witness :
    Newsletter.generate_newsletter
        (fun _ => ⟨StopReason.end_turn, [Block.text " "]⟩) 1 "p" =
      some (Except.error "No text content returned by the model.") := by
  refine (newsletter_blank_final_turn
      (fun _ => ⟨StopReason.end_turn, [Block.text " "]⟩) 1 "p"
      ⟨StopReason.end_turn, [Block.text " "]⟩
      [⟨Role.user, MsgContent.ofString "p"⟩,
       ⟨Role.assistant, MsgContent.ofBlocks [Block.text " "]⟩] rfl).1 ?_
  intro s hs
  simp only [List.mem_singleton, Block.text.injEq] at hs
  subst hs
  decide

/- ── C8: no client-side iteration cap ── -/

/-- C8: the loop enforces no client-side iteration cap: for every bound K
there is a client behaviour (always stopping with `tool_use`) under which the
loop is still running after K round-trips, from any starting conversation. -/
theorem newsletter_loop_no_client_cap :
    ∀ K : Nat, ∃ client : ApiClient, ∀ init : List Message,
      Newsletter.generate_newsletter_loop client K init = none := by
  intro K
  refine ⟨fun _ => ⟨StopReason.tool_use, [Block.tool_use "t"]⟩, ?_⟩
  induction K with
  | zero => intro init; rfl
  | succ n ih =>
    intro init
    simp only [Newsletter.generate_newsletter_loop]
    exact ih _

/- ── C9: tool_use with zero requests appends no requester turn ── -/

/-- C9: when a responder turn has stop reason `tool_use` but zero
tool-invocation-request blocks, the loop appends no requester turn and
resubmits the conversation extended only by the responder turn; a client that
always answers that way keeps the loop running forever (no fuel suffices). -/
theorem tool_use_zero_requests_behaviour :
    (∀ (client : ApiClient) (messages : List Message) (fuel : Nat)
        (content : List Block),
      client messages = ⟨StopReason.tool_use, content⟩ →
      Newsletter.tool_results_of content = [] →
      Newsletter.generate_newsletter_loop client (fuel + 1) messages =
        Newsletter.generate_newsletter_loop client fuel
          (messages ++ [⟨Role.assistant, MsgContent.ofBlocks content⟩])) ∧
    (∀ (fuel : Nat) (init : List Message),
      Newsletter.generate_newsletter_loop
        (fun _ => ⟨StopReason.tool_use, [Block.text "x"]⟩) fuel init = none) := by
  constructor
  · intro client messages fuel content h hz
    simp [Newsletter.generate_newsletter_loop, h, hz]
  · intro fuel
    induction fuel with
    | zero => intro init; rfl
    | succ n ih =>
      intro init
      simp only [Newsletter.generate_newsletter_loop]
      exact ih _

/-- Witness for C9: a turn with stop reason `tool_use` whose only block is a
text block. -/
theorem tool_use_zero_requests_behaviour_witness :
    Newsletter.generate_newsletter_loop
        (fun _ => ⟨StopReason.tool_use, [Block.text "x"]⟩) 1
        [⟨Role.user, MsgContent.ofString "p"⟩] =
      Newsletter.generate_newsletter_loop
        (fun _ => ⟨StopReason.tool_use, [Block.text "x"]⟩) 0
        ([⟨Role.user, MsgContent.ofString "p"⟩] ++
          [⟨Role.assistant, MsgContent.ofBlocks [Block.text "x"]⟩]) :=
  tool_use_zero_requests_behaviour.1 _ _ 0 [Block.text "x"] rfl rfl
